import Mathlib

/-!
# Verification of the sparse SSZ Merkle proof engine

Shallow embedding of `proof-gen` (the consolidation-incentives prover core):
`sparse_proof.rs`, `state_prover.rs`, `gindex.rs`, `proof.rs` and the SSZ
container types of `types.rs` / `beacon_state.rs`.

The SHA-256 compression primitive `hash_pair` is treated as an opaque
parameter `hp : Bytes32 → Bytes32 → Bytes32`: every structural property of
the proof engine holds for an arbitrary two-to-one hash, and the code never
inspects hash outputs.  A 32-byte value is modelled as a `List Nat` of its
bytes.
-/

/-- A 32-byte hash/chunk value (`[u8; 32]` in the source), as its list of bytes. -/
abbrev Bytes32 := List Nat

/-- The all-zero leaf `[0u8; 32]`. -/
def zeroLeaf : Bytes32 := List.replicate 32 0

/-- `ssz_u64_to_bytes32` / the length-chunk encoding (`proof.rs`,
`sparse_proof.rs`): the value cast to `u64`, little-endian, left-padded with
zero bytes to 32 bytes. -/
def u64_to_bytes32 (v : Nat) : Bytes32 :=
  (List.range 32).map fun i => v % 2 ^ 64 / 2 ^ (8 * i) % 256

section SparseProof

variable (hp : Bytes32 → Bytes32 → Bytes32)

/-- `zero_hashes` (`sparse_proof.rs:25`): `Z[0]` is the zero leaf and
`Z[i] = hash(Z[i-1], Z[i-1])`. -/
def zero_hashes : Nat → Bytes32
  | 0 => zeroLeaf
  | d + 1 => hp (zero_hashes d) (zero_hashes d)

/-- `get_leaf` (`sparse_proof.rs:132`): a leaf value, the zero chunk when out
of bounds. -/
def get_leaf (leaf_chunks : List Bytes32) (index : Nat) : Bytes32 :=
  leaf_chunks.getD index zeroLeaf

/-- `compute_subtree_root` (`sparse_proof.rs:142`): root of the subtree of
depth `depth` whose leftmost leaf slot is at absolute offset `start`; whole
subtrees beyond the populated prefix are read off the zero-hash table. -/
def compute_subtree_root (leaf_chunks : List Bytes32) (start : Nat) :
    Nat → Bytes32
  | 0 => get_leaf leaf_chunks start
  | d + 1 =>
    if leaf_chunks.length ≤ start then zero_hashes hp (d + 1)
    else
      hp (compute_subtree_root leaf_chunks start d)
        (compute_subtree_root leaf_chunks (start + 2 ^ d) d)

/-- The sibling-collection loop of `prove_against_leaf_chunks`
(`sparse_proof.rs:92-112`).  At each level the sibling position is `pos ^ 1`,
its subtree covers leaves starting at `(pos ^ 1) * 2^level`, and `pos` is then
halved.  `n` is the number of levels still to process. -/
def prove_siblings (leaf_chunks : List Bytes32) : Nat → Nat → Nat → List Bytes32
  | _, 0, _ => []
  | pos, n + 1, level =>
    compute_subtree_root hp leaf_chunks ((pos ^^^ 1) * 2 ^ level) level ::
      prove_siblings leaf_chunks (pos / 2) n (level + 1)

/-- The root-folding loop of `prove_against_leaf_chunks`
(`sparse_proof.rs:115-126`): hash the current node with each sibling, the
order given by the successive bits of the leaf index (`(index >> level) & 1`,
here consumed by repeated halving). -/
def fold_branch : Bytes32 → List Bytes32 → Nat → Bytes32
  | current, [], _ => current
  | current, sibling :: rest, idx =>
    fold_branch (if idx % 2 = 0 then hp current sibling else hp sibling current)
      rest (idx / 2)

end SparseProof

/-- `ProofError` (`proof.rs:37`), restricted to the variants the embedded code
can produce.  `IndexOutOfRange` models the `assert!(index < leaf_count)` panic
of `prove_against_leaf_chunks` (`sparse_proof.rs:60`) — a Rust panic, kept as
a separate variant so that claims about the genuine `ProofError` constructors
are unaffected. -/
inductive ProofError where
  | ConsolidationIndexOutOfBounds (requested : Nat) (count : Nat)
  | ValidatorIndexOutOfBounds (requested : Nat) (count : Nat)
  | ProofGenerationFailed
  | IndexOutOfRange (index : Nat) (depth : Nat)
  deriving DecidableEq

section SparseProofTop

variable (hp : Bytes32 → Bytes32 → Bytes32)

/-- `prove_against_leaf_chunks` (`sparse_proof.rs:53`): branch of sibling
hashes from leaf to root (length = `depth`) together with the recomputed root.
The source `assert!`s `index < 2^depth`; the failing assert is the
`IndexOutOfRange` outcome. -/
def prove_against_leaf_chunks (leaf_chunks : List Bytes32) (index : Nat)
    (depth : Nat) : Except ProofError (List Bytes32 × Bytes32) :=
  if index < 2 ^ depth then
    let proof := prove_siblings hp leaf_chunks index depth 0
    let root := fold_branch hp (get_leaf leaf_chunks index) proof index
    .ok (proof, root)
  else .error (.IndexOutOfRange index depth)

/-- `mix_in_length` (`sparse_proof.rs:168`): `hash(data_root, length_chunk)`. -/
def mix_in_length (data_root : Bytes32) (length : Nat) : Bytes32 :=
  hp data_root (u64_to_bytes32 length)

/-- `prove_list_element` (`sparse_proof.rs:183`): proof through the data tree
with the length chunk appended as final sibling, and the mixed-in list root. -/
def prove_list_element (element_hashes : List Bytes32) (element_index : Nat)
    (list_limit_depth : Nat) (list_length : Nat) :
    Except ProofError (List Bytes32 × Bytes32) :=
  match prove_against_leaf_chunks hp element_hashes element_index list_limit_depth with
  | .error e => .error e
  | .ok (proof, data_root) =>
    let length_bytes := u64_to_bytes32 list_length
    .ok (proof ++ [length_bytes], hp data_root length_bytes)

/-- `compute_list_root` (`state_prover.rs:286`): data root of the capacity
tree (the root returned by `prove_against_leaf_chunks(hashes, 0, depth)`,
whose assert `0 < 2^depth` always holds) with the list length mixed in. -/
def compute_list_root (element_hashes : List Bytes32) (tree_depth : Nat)
    (length : Nat) : Bytes32 :=
  let data_root := fold_branch hp (get_leaf element_hashes 0)
    (prove_siblings hp element_hashes 0 tree_depth 0) 0
  mix_in_length hp data_root length

end SparseProofTop

/-! ## SSZ container types (`types.rs` / `beacon_state.rs`) -/

/-- `Validator` (`beacon_state.rs`): 8 fields. -/
structure Validator where
  pubkey : List Nat
  withdrawal_credentials : Bytes32
  effective_balance : Nat
  slashed : Bool
  activation_eligibility_epoch : Nat
  activation_epoch : Nat
  exit_epoch : Nat
  withdrawable_epoch : Nat
  deriving DecidableEq

/-- `PendingConsolidation` (`beacon_state.rs`): 2 `u64` fields. -/
structure PendingConsolidation where
  source_index : Nat
  target_index : Nat
  deriving DecidableEq

/-- `BeaconBlockHeader` (`beacon_state.rs`): 5 fields, `state_root` at index 3. -/
structure BeaconBlockHeader where
  slot : Nat
  proposer_index : Nat
  parent_root : Bytes32
  state_root : Bytes32
  body_root : Bytes32
  deriving DecidableEq

/-- SSZ chunk of a `bool` field: one byte, zero-padded. -/
def bool_to_bytes32 (b : Bool) : Bytes32 :=
  (if b then 1 else 0) :: List.replicate 31 0

/-- The `j`-th 32-byte chunk of a packed byte vector, zero-padded. -/
def bytes_chunk (bytes : List Nat) (j : Nat) : Bytes32 :=
  let c := (bytes.drop (32 * j)).take 32
  c ++ List.replicate (32 - c.length) 0

section Containers

variable (hp : Bytes32 → Bytes32 → Bytes32)

/-- SSZ hash tree root of a `Vector<u8, 48>` (the BLS pubkey): two packed
chunks merkleized at depth 1. -/
def vector48_root (bytes : List Nat) : Bytes32 :=
  hp (bytes_chunk bytes 0) (bytes_chunk bytes 1)

/-- Field chunks of a `Validator` in SSZ order. -/
def validator_field_chunks (v : Validator) : List Bytes32 :=
  [vector48_root hp v.pubkey,
   v.withdrawal_credentials,
   u64_to_bytes32 v.effective_balance,
   bool_to_bytes32 v.slashed,
   u64_to_bytes32 v.activation_eligibility_epoch,
   u64_to_bytes32 v.activation_epoch,
   u64_to_bytes32 v.exit_epoch,
   u64_to_bytes32 v.withdrawable_epoch]

/-- `Validator::hash_tree_root()`: 8 leaves merkleized at depth 3. -/
def validator_htr (v : Validator) : Bytes32 :=
  compute_subtree_root hp (validator_field_chunks hp v) 0 3

/-- Field chunks of a `PendingConsolidation` in SSZ order. -/
def consolidation_field_chunks (c : PendingConsolidation) : List Bytes32 :=
  [u64_to_bytes32 c.source_index, u64_to_bytes32 c.target_index]

/-- `PendingConsolidation::hash_tree_root()`: 2 leaves at depth 1. -/
def consolidation_htr (c : PendingConsolidation) : Bytes32 :=
  compute_subtree_root hp (consolidation_field_chunks c) 0 1

/-- Field chunks of a `BeaconBlockHeader` in SSZ order (5 fields, padded to 8
leaves by the sparse merkleizer). -/
def header_field_chunks (h : BeaconBlockHeader) : List Bytes32 :=
  [u64_to_bytes32 h.slot, u64_to_bytes32 h.proposer_index,
   h.parent_root, h.state_root, h.body_root]

/-- `prove_small_container_field` (`sparse_proof.rs:227`), specialised to the
fixed container paths the prover uses: ssz_rs returns the depth-`depth` branch
for field `index` of the padded field-chunk tree together with the field leaf. -/
def prove_container_chunks (chunks : List Bytes32) (index : Nat) (depth : Nat) :
    List Bytes32 × Bytes32 :=
  (prove_siblings hp chunks index depth 0, get_leaf chunks index)

end Containers

/-- Defaulted `Validator` (`Validator::default()` has empty/zero fields). -/
def defaultValidator : Validator :=
  { pubkey := [], withdrawal_credentials := zeroLeaf, effective_balance := 0,
    slashed := false, activation_eligibility_epoch := 0, activation_epoch := 0,
    exit_epoch := 0, withdrawable_epoch := 0 }

/-- Defaulted `PendingConsolidation`. -/
def defaultConsolidation : PendingConsolidation :=
  { source_index := 0, target_index := 0 }

/-- `ConsolidationProofBundle` (`proof.rs:56`). -/
structure ConsolidationProofBundle where
  beacon_timestamp : Nat
  consolidation_index : Nat
  source_index : Nat
  activation_epoch : Nat
  source_credentials : Bytes32
  proof_consolidation : List Bytes32
  proof_credentials : List Bytes32
  proof_activation_epoch : List Bytes32
  deriving DecidableEq

/-- `ConsolidationProofBundle::recipient_address` (`proof.rs:88`): the last 20
bytes of the credentials when the prefix byte is `0x01` or `0x02`. -/
def ConsolidationProofBundle.recipient_address (b : ConsolidationProofBundle) :
    Option (List Nat) :=
  let prefix_byte := b.source_credentials.getD 0 0
  if prefix_byte = 1 ∨ prefix_byte = 2 then
    some ((b.source_credentials.drop 12).take 20)
  else none

/-- `StateProver` (`state_prover.rs:24`). -/
structure StateProver where
  field_roots : List Bytes32
  validator_hashes : List Bytes32
  validator_count : Nat
  consolidation_hashes : List Bytes32
  consolidation_count : Nat
  validators_tree_depth : Nat
  consolidations_tree_depth : Nat
  validators : List Validator
  consolidations : List PendingConsolidation
  deriving DecidableEq

section Prover

variable (hp : Bytes32 → Bytes32 → Bytes32)

/-- `StateProver::new` (`state_prover.rs:38`): requires exactly 37 field
roots, precomputes the element hash arrays and the list lengths. -/
def StateProver.new (field_roots : List Bytes32) (validators : List Validator)
    (consolidations : List PendingConsolidation)
    (validators_tree_depth consolidations_tree_depth : Nat) :
    Except ProofError StateProver :=
  if field_roots.length ≠ 37 then .error .ProofGenerationFailed
  else
    .ok { field_roots := field_roots,
          validator_hashes := validators.map (validator_htr hp),
          validator_count := validators.length,
          consolidation_hashes := consolidations.map (consolidation_htr hp),
          consolidation_count := consolidations.length,
          validators_tree_depth := validators_tree_depth,
          consolidations_tree_depth := consolidations_tree_depth,
          validators := validators,
          consolidations := consolidations }

/-- `StateProver::compute_state_root` (`state_prover.rs:86`): root of the
37 field roots in the depth-6 state tree (via `prove_against_leaf_chunks`
at index 0, whose assert `0 < 2^6` holds). -/
def StateProver.compute_state_root (sp : StateProver) : Bytes32 :=
  fold_branch hp (get_leaf sp.field_roots 0)
    (prove_siblings hp sp.field_roots 0 6 0) 0

/-- `StateProver::prove_consolidation_source_index` (`state_prover.rs:93`). -/
def StateProver.prove_consolidation_source_index (sp : StateProver)
    (consolidation_index : Nat) : Except ProofError (List Bytes32 × Bytes32) :=
  if sp.consolidation_count ≤ consolidation_index then
    .error (.ConsolidationIndexOutOfBounds consolidation_index sp.consolidation_count)
  else
    let consolidation := sp.consolidations.getD consolidation_index defaultConsolidation
    let inner := prove_container_chunks hp (consolidation_field_chunks consolidation) 0 1
    match prove_against_leaf_chunks hp sp.consolidation_hashes consolidation_index
        sp.consolidations_tree_depth with
    | .error e => .error e
    | .ok (list_data_proof, _) =>
      let length_bytes := u64_to_bytes32 sp.consolidation_count
      match prove_against_leaf_chunks hp sp.field_roots 36 6 with
      | .error e => .error e
      | .ok (state_proof, _) =>
        .ok (inner.1 ++ list_data_proof ++ length_bytes :: state_proof, inner.2)

/-- `StateProver::prove_validator_credentials` (`state_prover.rs:139`):
withdrawal_credentials is Validator field 1. -/
def StateProver.prove_validator_credentials (sp : StateProver)
    (validator_index : Nat) : Except ProofError (List Bytes32 × Bytes32) :=
  if sp.validators.length ≤ validator_index then
    .error (.ValidatorIndexOutOfBounds validator_index sp.validators.length)
  else
    let validator := sp.validators.getD validator_index defaultValidator
    let inner := prove_container_chunks hp (validator_field_chunks hp validator) 1 3
    match prove_against_leaf_chunks hp sp.validator_hashes validator_index
        sp.validators_tree_depth with
    | .error e => .error e
    | .ok (list_data_proof, _) =>
      let length_bytes := u64_to_bytes32 sp.validator_count
      match prove_against_leaf_chunks hp sp.field_roots 11 6 with
      | .error e => .error e
      | .ok (state_proof, _) =>
        .ok (inner.1 ++ list_data_proof ++ length_bytes :: state_proof, inner.2)

/-- `StateProver::prove_validator_activation_epoch` (`state_prover.rs:181`):
activation_epoch is Validator field 5. -/
def StateProver.prove_validator_activation_epoch (sp : StateProver)
    (validator_index : Nat) : Except ProofError (List Bytes32 × Bytes32) :=
  if sp.validators.length ≤ validator_index then
    .error (.ValidatorIndexOutOfBounds validator_index sp.validators.length)
  else
    let validator := sp.validators.getD validator_index defaultValidator
    let inner := prove_container_chunks hp (validator_field_chunks hp validator) 5 3
    match prove_against_leaf_chunks hp sp.validator_hashes validator_index
        sp.validators_tree_depth with
    | .error e => .error e
    | .ok (list_data_proof, _) =>
      let length_bytes := u64_to_bytes32 sp.validator_count
      match prove_against_leaf_chunks hp sp.field_roots 11 6 with
      | .error e => .error e
      | .ok (state_proof, _) =>
        .ok (inner.1 ++ list_data_proof ++ length_bytes :: state_proof, inner.2)

/-- `StateProver::generate_full_proof_bundle` (`state_prover.rs:223`). -/
def StateProver.generate_full_proof_bundle (sp : StateProver)
    (header : BeaconBlockHeader) (consolidation_index : Nat)
    (beacon_timestamp : Nat) : Except ProofError ConsolidationProofBundle :=
  if sp.consolidation_count ≤ consolidation_index then
    .error (.ConsolidationIndexOutOfBounds consolidation_index sp.consolidation_count)
  else
    let consolidation := sp.consolidations.getD consolidation_index defaultConsolidation
    let source_index := consolidation.source_index
    if sp.validators.length ≤ source_index then
      .error (.ValidatorIndexOutOfBounds source_index sp.validators.length)
    else
      let validator := sp.validators.getD source_index defaultValidator
      let header_proof := (prove_container_chunks hp (header_field_chunks header) 3 3).1
      match sp.prove_consolidation_source_index hp consolidation_index with
      | .error e => .error e
      | .ok (consolidation_state_proof, _) =>
        match sp.prove_validator_credentials hp source_index with
        | .error e => .error e
        | .ok (credentials_state_proof, _) =>
          match sp.prove_validator_activation_epoch hp source_index with
          | .error e => .error e
          | .ok (activation_state_proof, _) =>
            .ok { beacon_timestamp := beacon_timestamp,
                  consolidation_index := consolidation_index,
                  source_index := source_index,
                  activation_epoch := validator.activation_epoch,
                  source_credentials := validator.withdrawal_credentials,
                  proof_consolidation := consolidation_state_proof ++ header_proof,
                  proof_credentials := credentials_state_proof ++ header_proof,
                  proof_activation_epoch := activation_state_proof ++ header_proof }

end Prover

/-! ## Gindex calculator (`gindex.rs`)

`GindexCalculator` works on `u64` values.  `u64_bitlen_fuel 64 n` computes the
bit length of a 64-bit value (64 minus `n.leading_zeros()`), structurally so
that the kernel can evaluate it. -/

/-- Bit length of `n`, with explicit fuel (`64` for a `u64`). -/
def u64_bitlen_fuel : Nat → Nat → Nat
  | 0, _ => 0
  | fuel + 1, n => if n = 0 then 0 else u64_bitlen_fuel fuel (n / 2) + 1

/-- `u64::leading_zeros`. -/
def u64_leading_zeros (n : Nat) : Nat := 64 - u64_bitlen_fuel 64 n

/-- `GindexCalculator::gindex_depth` (`gindex.rs:162`): `63 - leading_zeros`,
i.e. `floor(log2 gindex)` for a positive 64-bit gindex. -/
def gindex_depth (gindex : Nat) : Nat := 63 - u64_leading_zeros gindex

/-- One step of `concat_gindices` (`gindex.rs:152-155`):
`result = (result << depth) | (gindex ^ (1 << depth))` in `u64` arithmetic
(the left shift discards bits above bit 63). -/
def concat_step (result gindex : Nat) : Nat :=
  result * 2 ^ gindex_depth gindex % 2 ^ 64 ||| gindex ^^^ 2 ^ gindex_depth gindex

/-- `GindexCalculator::concat_gindices` (`gindex.rs:149`): fold of
`concat_step` starting from the root gindex 1. -/
def concat_gindices (gindices : List Nat) : Nat :=
  gindices.foldl concat_step 1

/-- `GindexCalculator::validators_tree_depth` (`gindex.rs:133`):
the constant 40 (`VALIDATOR_REGISTRY_LIMIT = 2^40`), in every preset. -/
def validators_tree_depth : Nat := 40

/-- `preset::PENDING_CONSOLIDATIONS_DEPTH` for the production (gnosis)
preset (`types.rs:20`). -/
def PENDING_CONSOLIDATIONS_DEPTH_PRODUCTION : Nat := 18

/-- `preset::PENDING_CONSOLIDATIONS_DEPTH` for the test (minimal) preset
(`types.rs:34`). -/
def PENDING_CONSOLIDATIONS_DEPTH_TEST : Nat := 6

/-- `GindexCalculator::consolidation_source_gindex` (`gindex.rs:50`),
parameterised by the preset constant `PENDING_CONSOLIDATIONS_DEPTH` (`pcd`):
`concat([8+3, 64+36, 2, 2^pcd + i, 2+0])`. -/
def consolidation_source_gindex (pcd : Nat) (consolidation_index : Nat) : Nat :=
  concat_gindices [8 + 3, 64 + 36, 2, 2 ^ pcd + consolidation_index, 2 + 0]

/-- `GindexCalculator::validator_credentials_gindex` (`gindex.rs:95`):
`concat([8+3, 64+11, 2, 2^40 + i, 8+1])` (the validators data depth is the
constant 40 in every preset). -/
def validator_credentials_gindex (validator_index : Nat) : Nat :=
  concat_gindices [8 + 3, 64 + 11, 2, 2 ^ validators_tree_depth + validator_index, 8 + 1]

/-- `GindexCalculator::validator_activation_epoch_gindex` (`gindex.rs:114`):
same path with Validator field 5 (`8+5`). -/
def validator_activation_epoch_gindex (validator_index : Nat) : Nat :=
  concat_gindices [8 + 3, 64 + 11, 2, 2 ^ validators_tree_depth + validator_index, 8 + 5]

/-- `GindexCalculator::consolidation_proof_length` (`gindex.rs:168`). -/
def consolidation_proof_length (pcd : Nat) : Nat :=
  gindex_depth (consolidation_source_gindex pcd 0)

/-- `GindexCalculator::validator_proof_length` (`gindex.rs:175`). -/
def validator_proof_length : Nat :=
  gindex_depth (validator_credentials_gindex 0)

/-! ## Structural lemmas about the sparse proof engine -/

theorem two_mul_xor_one (m : Nat) : 2 * m ^^^ 1 = 2 * m + 1 := by
  apply Nat.eq_of_testBit_eq
  intro i
  cases i with
  | zero =>
    simp [Nat.testBit_xor, Nat.testBit_zero, Nat.mul_add_mod]
  | succ i =>
    have h1 : 2 * m / 2 = m := by omega
    have h2 : (2 * m + 1) / 2 = m := by omega
    rw [Nat.testBit_xor]
    simp only [Nat.testBit_add_one, h1, h2]
    norm_num [Nat.zero_testBit]

theorem two_mul_add_one_xor_one (m : Nat) : (2 * m + 1) ^^^ 1 = 2 * m := by
  apply Nat.eq_of_testBit_eq
  intro i
  cases i with
  | zero =>
    simp [Nat.testBit_xor, Nat.testBit_zero, Nat.mul_add_mod]
    omega
  | succ i =>
    have h1 : 2 * m / 2 = m := by omega
    have h2 : (2 * m + 1) / 2 = m := by omega
    rw [Nat.testBit_xor]
    simp only [Nat.testBit_add_one, h1, h2]
    norm_num [Nat.zero_testBit]

theorem prove_siblings_length (hp : Bytes32 → Bytes32 → Bytes32)
    (leaves : List Bytes32) :
    ∀ n pos level, (prove_siblings hp leaves pos n level).length = n := by
  intro n
  induction n with
  | zero => intro pos level; rfl
  | succ n ih => intro pos level; simp [prove_siblings, ih]

theorem compute_subtree_root_of_ge (hp : Bytes32 → Bytes32 → Bytes32)
    (leaves : List Bytes32) :
    ∀ d start, leaves.length ≤ start →
      compute_subtree_root hp leaves start d = zero_hashes hp d := by
  intro d
  induction d with
  | zero =>
    intro start h
    rw [compute_subtree_root, get_leaf, List.getD_eq_getElem?_getD,
      List.getElem?_eq_none h]
    rfl
  | succ d ih =>
    intro start h
    rw [compute_subtree_root, if_pos h]

theorem compute_subtree_root_succ (hp : Bytes32 → Bytes32 → Bytes32)
    (leaves : List Bytes32) (start d : Nat) :
    compute_subtree_root hp leaves start (d + 1)
      = hp (compute_subtree_root hp leaves start d)
          (compute_subtree_root hp leaves (start + 2 ^ d) d) := by
  rw [compute_subtree_root]
  split
  · next h =>
    rw [compute_subtree_root_of_ge hp leaves d start h,
      compute_subtree_root_of_ge hp leaves d (start + 2 ^ d)
        (le_trans h (Nat.le_add_right start (2 ^ d))),
      zero_hashes]
  · rfl

/-- Folding the leaf up the collected siblings computes exactly the root of
the (sub)tree above it: the heart of claims about `prove_against_leaf_chunks`. -/
theorem fold_prove (hp : Bytes32 → Bytes32 → Bytes32) (leaves : List Bytes32) :
    ∀ n pos level,
      fold_branch hp (compute_subtree_root hp leaves (pos * 2 ^ level) level)
          (prove_siblings hp leaves pos n level) pos
        = compute_subtree_root hp leaves (pos / 2 ^ n * 2 ^ (level + n)) (level + n) := by
  intro n
  induction n with
  | zero => intro pos level; simp [prove_siblings, fold_branch]
  | succ n ih =>
    intro pos level
    have b4 : level + 1 + n = level + (n + 1) := by omega
    rcases Nat.mod_two_eq_zero_or_one pos with h | h
    · obtain ⟨q, rfl⟩ : ∃ q, pos = 2 * q := ⟨pos / 2, by omega⟩
      have hq2 : 2 * q / 2 = q := by omega
      rw [prove_siblings, fold_branch, if_pos h, two_mul_xor_one, hq2]
      have b1 : (2 * q + 1) * 2 ^ level = 2 * q * 2 ^ level + 2 ^ level := by ring
      rw [b1, ← compute_subtree_root_succ hp leaves (2 * q * 2 ^ level) level]
      have b2 : 2 * q * 2 ^ level = q * 2 ^ (level + 1) := by ring
      have b3 : q / 2 ^ n = 2 * q / 2 ^ (n + 1) := by
        rw [pow_succ', ← Nat.div_div_eq_div_mul]
        congr 1
        omega
      rw [b2, ih q (level + 1), b3, b4]
    · obtain ⟨q, rfl⟩ : ∃ q, pos = 2 * q + 1 := ⟨pos / 2, by omega⟩
      have hq2 : (2 * q + 1) / 2 = q := by omega
      rw [prove_siblings, fold_branch, if_neg (by omega), two_mul_add_one_xor_one, hq2]
      have b1 : (2 * q + 1) * 2 ^ level = 2 * q * 2 ^ level + 2 ^ level := by ring
      rw [b1, ← compute_subtree_root_succ hp leaves (2 * q * 2 ^ level) level]
      have b2 : 2 * q * 2 ^ level = q * 2 ^ (level + 1) := by ring
      have b5 : q / 2 ^ n = (2 * q + 1) / 2 ^ (n + 1) := by
        rw [pow_succ', ← Nat.div_div_eq_div_mul]
        congr 1
        omega
      rw [b2, ih q (level + 1), b5, b4]

/-- The root recomputed by `prove_against_leaf_chunks` for index `i < 2^d`
equals the sparse subtree root of the whole tree. -/
theorem fold_prove_top (hp : Bytes32 → Bytes32 → Bytes32)
    (leaves : List Bytes32) (d i : Nat) (hi : i < 2 ^ d) :
    fold_branch hp (get_leaf leaves i) (prove_siblings hp leaves i d 0) i
      = compute_subtree_root hp leaves 0 d := by
  have h0 := fold_prove hp leaves d i 0
  rw [Nat.div_eq_of_lt hi] at h0
  simp only [pow_zero, mul_one, zero_mul, zero_add] at h0
  exact h0

/-- Branch entry at level `k`: the root of the sibling subtree whose leftmost
leaf offset is `(pos / 2^k XOR 1) * 2^k`. -/
theorem prove_siblings_getD (hp : Bytes32 → Bytes32 → Bytes32)
    (leaves : List Bytes32) :
    ∀ n pos level k, k < n →
      (prove_siblings hp leaves pos n level).getD k zeroLeaf
        = compute_subtree_root hp leaves
            ((pos / 2 ^ k ^^^ 1) * 2 ^ (level + k)) (level + k) := by
  intro n
  induction n with
  | zero => intro pos level k hk; omega
  | succ n ih =>
    intro pos level k hk
    cases k with
    | zero => simp [prove_siblings]
    | succ k =>
      rw [prove_siblings, List.getD_cons_succ, ih (pos / 2) (level + 1) k (by omega)]
      have e1 : pos / 2 / 2 ^ k = pos / 2 ^ (k + 1) := by
        rw [pow_succ', ← Nat.div_div_eq_div_mul]
      have e2 : level + 1 + k = level + (k + 1) := by omega
      rw [e1, e2]

/-- Concrete hash function used by the closed witnesses: the structural
theorems hold for an arbitrary `hp`, so any cheap instance will do. -/
def hpW : Bytes32 → Bytes32 → Bytes32 :=
  fun a b => [a.headD 0 + 2 * b.headD 0 + 1]

/-- C1: for every leaf array, depth `d ≤ 40` and index `i < 2^d`,
`prove_against_leaf_chunks(leaves, i, d)` succeeds with a branch of length
exactly `d`, its root is the fold of `leaves[i]` (the zero leaf when out of
range) up the branch using the bits of `i` (bit 0 at level 0, bit = 0 hashing
`(current, sibling)`, bit = 1 hashing `(sibling, current)`), and that root
equals the sparse subtree root `compute_subtree_root(leaves, 0, d)`. -/
theorem c1_prove_branch_length_fold_root (hp : Bytes32 → Bytes32 → Bytes32)
    (leaves : List Bytes32) (d i : Nat) (hd : d ≤ 40) (hi : i < 2 ^ d) :
    ∃ branch root,
      prove_against_leaf_chunks hp leaves i d = .ok (branch, root) ∧
      branch.length = d ∧
      root = fold_branch hp (get_leaf leaves i) branch i ∧
      root = compute_subtree_root hp leaves 0 d := by
  refine ⟨prove_siblings hp leaves i d 0,
    fold_branch hp (get_leaf leaves i) (prove_siblings hp leaves i d 0) i,
    ?_, prove_siblings_length hp leaves d i 0, rfl,
    fold_prove_top hp leaves d i hi⟩
  rw [prove_against_leaf_chunks, if_pos hi]

/-- Witness for C1 at `leaves = [[1]]`, `d = 1`, `i = 0`. -/
theorem c1_witness :
    (1 : Nat) ≤ 40 ∧ (0 : Nat) < 2 ^ 1 ∧
    ∃ branch root,
      prove_against_leaf_chunks hpW [[1]] 0 1 = .ok (branch, root) ∧
      branch.length = 1 ∧
      root = fold_branch hpW (get_leaf [[1]] 0) branch 0 ∧
      root = compute_subtree_root hpW [[1]] 0 1 :=
  ⟨by decide, by decide,
    c1_prove_branch_length_fold_root hpW [[1]] 1 0 (by decide) (by decide)⟩

/-- C6: in a `prove_against_leaf_chunks(leaves, i, d)` call with `i < 2^d`,
the branch element at any level `k < d` is the precomputed zero hash `Z[k]`
whenever the sibling subtree at level `k` holds no populated leaf, i.e. its
leftmost leaf offset `(i / 2^k XOR 1) * 2^k` is at or beyond `leaves.len()`. -/
theorem c6_empty_sibling_is_zero_hash (hp : Bytes32 → Bytes32 → Bytes32)
    (leaves : List Bytes32) (d i k : Nat) (hi : i < 2 ^ d) (hk : k < d)
    (hempty : leaves.length ≤ (i / 2 ^ k ^^^ 1) * 2 ^ k) :
    ∀ branch root,
      prove_against_leaf_chunks hp leaves i d = .ok (branch, root) →
      branch.getD k zeroLeaf = zero_hashes hp k := by
  intro branch root hok
  rw [prove_against_leaf_chunks, if_pos hi] at hok
  simp only [Except.ok.injEq, Prod.mk.injEq] at hok
  obtain ⟨hb, hr⟩ := hok
  subst hb
  rw [prove_siblings_getD hp leaves d i 0 k hk]
  simp only [zero_add]
  exact compute_subtree_root_of_ge hp leaves k _ hempty

/-- Witness for C6 at `leaves = [[1], [2]]`, `d = 2`, `i = 0`, `k = 1`: the
level-1 sibling subtree starts at leaf offset 2 and is empty. -/
theorem c6_witness :
    (0 : Nat) < 2 ^ 2 ∧ (1 : Nat) < 2 ∧
    ([[1], [2]] : List Bytes32).length ≤ (0 / 2 ^ 1 ^^^ 1) * 2 ^ 1 ∧
    (prove_siblings hpW [[1], [2]] 0 2 0).getD 1 zeroLeaf = zero_hashes hpW 1 :=
  ⟨by decide, by decide, by decide,
    c6_empty_sibling_is_zero_hash hpW [[1], [2]] 2 0 1 (by decide) (by decide)
      (by decide) (prove_siblings hpW [[1], [2]] 0 2 0)
      (fold_branch hpW (get_leaf [[1], [2]] 0) (prove_siblings hpW [[1], [2]] 0 2 0) 0)
      rfl⟩

/-- C5: the list root is the data-tree subtree root with the little-endian
`u64` length chunk mixed in, and `prove_list_element` returns the data-tree
branch with exactly that length chunk appended as final sibling, together
with that same combined list root. -/
theorem c5_list_root_and_list_proof (hp : Bytes32 → Bytes32 → Bytes32)
    (hashes : List Bytes32) (D L j : Nat) (hj : j < 2 ^ D) :
    compute_list_root hp hashes D L
      = hp (compute_subtree_root hp hashes 0 D) (u64_to_bytes32 L) ∧
    ∃ dataBranch dataRoot,
      prove_against_leaf_chunks hp hashes j D = .ok (dataBranch, dataRoot) ∧
      prove_list_element hp hashes j D L
        = .ok (dataBranch ++ [u64_to_bytes32 L], compute_list_root hp hashes D L) := by
  have hroot : compute_list_root hp hashes D L
      = hp (compute_subtree_root hp hashes 0 D) (u64_to_bytes32 L) := by
    rw [compute_list_root, mix_in_length,
      fold_prove_top hp hashes D 0 (Nat.pos_pow_of_pos D (by omega))]
  refine ⟨hroot, prove_siblings hp hashes j D 0,
    fold_branch hp (get_leaf hashes j) (prove_siblings hp hashes j D 0) j, ?_, ?_⟩
  · rw [prove_against_leaf_chunks, if_pos hj]
  · rw [prove_list_element, prove_against_leaf_chunks, if_pos hj]
    show Except.ok (prove_siblings hp hashes j D 0 ++ [u64_to_bytes32 L],
      hp (fold_branch hp (get_leaf hashes j) (prove_siblings hp hashes j D 0) j)
        (u64_to_bytes32 L)) = _
    rw [fold_prove_top hp hashes D j hj, hroot]

/-- Witness for C5 at `hashes = [[3]]`, `D = 1`, `L = 1`, `j = 0`. -/
theorem c5_witness :
    (0 : Nat) < 2 ^ 1 ∧
    (compute_list_root hpW [[3]] 1 1
        = hpW (compute_subtree_root hpW [[3]] 0 1) (u64_to_bytes32 1) ∧
      ∃ dataBranch dataRoot,
        prove_against_leaf_chunks hpW [[3]] 0 1 = .ok (dataBranch, dataRoot) ∧
        prove_list_element hpW [[3]] 0 1 1
          = .ok (dataBranch ++ [u64_to_bytes32 1], compute_list_root hpW [[3]] 1 1)) :=
  ⟨by decide, c5_list_root_and_list_proof hpW [[3]] 1 1 0 (by decide)⟩
theorem prove_against_ok (hp : Bytes32 → Bytes32 → Bytes32)
    (leaves : List Bytes32) (i d : Nat) (h : i < 2 ^ d) :
    prove_against_leaf_chunks hp leaves i d
      = .ok (prove_siblings hp leaves i d 0,
          fold_branch hp (get_leaf leaves i) (prove_siblings hp leaves i d 0) i) := by
  rw [prove_against_leaf_chunks, if_pos h]

theorem prove_against_error (hp : Bytes32 → Bytes32 → Bytes32)
    (leaves : List Bytes32) (i d : Nat) (h : ¬ i < 2 ^ d) :
    prove_against_leaf_chunks hp leaves i d = .error (.IndexOutOfRange i d) := by
  rw [prove_against_leaf_chunks, if_neg h]

theorem pcsi_ok (hp : Bytes32 → Bytes32 → Bytes32) (sp : StateProver) (ci : Nat)
    (h1 : ci < sp.consolidation_count) (h2 : ci < 2 ^ sp.consolidations_tree_depth) :
    sp.prove_consolidation_source_index hp ci
      = .ok ((prove_container_chunks hp
            (consolidation_field_chunks (sp.consolidations.getD ci defaultConsolidation)) 0 1).1
          ++ prove_siblings hp sp.consolidation_hashes ci sp.consolidations_tree_depth 0
          ++ u64_to_bytes32 sp.consolidation_count :: prove_siblings hp sp.field_roots 36 6 0,
        (prove_container_chunks hp
            (consolidation_field_chunks (sp.consolidations.getD ci defaultConsolidation)) 0 1).2) := by
  rw [StateProver.prove_consolidation_source_index, if_neg (by omega),
    prove_against_ok hp sp.consolidation_hashes ci sp.consolidations_tree_depth h2,
    prove_against_ok hp sp.field_roots 36 6 (by norm_num)]

theorem pcsi_error_oob (hp : Bytes32 → Bytes32 → Bytes32) (sp : StateProver) (ci : Nat)
    (h1 : sp.consolidation_count ≤ ci) :
    sp.prove_consolidation_source_index hp ci
      = .error (.ConsolidationIndexOutOfBounds ci sp.consolidation_count) := by
  rw [StateProver.prove_consolidation_source_index, if_pos h1]

theorem pcsi_error_panic (hp : Bytes32 → Bytes32 → Bytes32) (sp : StateProver) (ci : Nat)
    (h1 : ci < sp.consolidation_count) (h2 : ¬ ci < 2 ^ sp.consolidations_tree_depth) :
    sp.prove_consolidation_source_index hp ci
      = .error (.IndexOutOfRange ci sp.consolidations_tree_depth) := by
  rw [StateProver.prove_consolidation_source_index, if_neg (by omega),
    prove_against_error hp sp.consolidation_hashes ci sp.consolidations_tree_depth h2]

theorem pvc_ok (hp : Bytes32 → Bytes32 → Bytes32) (sp : StateProver) (vi : Nat)
    (h1 : vi < sp.validators.length) (h2 : vi < 2 ^ sp.validators_tree_depth) :
    sp.prove_validator_credentials hp vi
      = .ok ((prove_container_chunks hp
            (validator_field_chunks hp (sp.validators.getD vi defaultValidator)) 1 3).1
          ++ prove_siblings hp sp.validator_hashes vi sp.validators_tree_depth 0
          ++ u64_to_bytes32 sp.validator_count :: prove_siblings hp sp.field_roots 11 6 0,
        (prove_container_chunks hp
            (validator_field_chunks hp (sp.validators.getD vi defaultValidator)) 1 3).2) := by
  rw [StateProver.prove_validator_credentials, if_neg (by omega),
    prove_against_ok hp sp.validator_hashes vi sp.validators_tree_depth h2,
    prove_against_ok hp sp.field_roots 11 6 (by norm_num)]

theorem pvc_error_oob (hp : Bytes32 → Bytes32 → Bytes32) (sp : StateProver) (vi : Nat)
    (h1 : sp.validators.length ≤ vi) :
    sp.prove_validator_credentials hp vi
      = .error (.ValidatorIndexOutOfBounds vi sp.validators.length) := by
  rw [StateProver.prove_validator_credentials, if_pos h1]

theorem pvc_error_panic (hp : Bytes32 → Bytes32 → Bytes32) (sp : StateProver) (vi : Nat)
    (h1 : vi < sp.validators.length) (h2 : ¬ vi < 2 ^ sp.validators_tree_depth) :
    sp.prove_validator_credentials hp vi
      = .error (.IndexOutOfRange vi sp.validators_tree_depth) := by
  rw [StateProver.prove_validator_credentials, if_neg (by omega),
    prove_against_error hp sp.validator_hashes vi sp.validators_tree_depth h2]

theorem pvae_ok (hp : Bytes32 → Bytes32 → Bytes32) (sp : StateProver) (vi : Nat)
    (h1 : vi < sp.validators.length) (h2 : vi < 2 ^ sp.validators_tree_depth) :
    sp.prove_validator_activation_epoch hp vi
      = .ok ((prove_container_chunks hp
            (validator_field_chunks hp (sp.validators.getD vi defaultValidator)) 5 3).1
          ++ prove_siblings hp sp.validator_hashes vi sp.validators_tree_depth 0
          ++ u64_to_bytes32 sp.validator_count :: prove_siblings hp sp.field_roots 11 6 0,
        (prove_container_chunks hp
            (validator_field_chunks hp (sp.validators.getD vi defaultValidator)) 5 3).2) := by
  rw [StateProver.prove_validator_activation_epoch, if_neg (by omega),
    prove_against_ok hp sp.validator_hashes vi sp.validators_tree_depth h2,
    prove_against_ok hp sp.field_roots 11 6 (by norm_num)]

theorem pvae_error_panic (hp : Bytes32 → Bytes32 → Bytes32) (sp : StateProver) (vi : Nat)
    (h1 : vi < sp.validators.length) (h2 : ¬ vi < 2 ^ sp.validators_tree_depth) :
    sp.prove_validator_activation_epoch hp vi
      = .error (.IndexOutOfRange vi sp.validators_tree_depth) := by
  rw [StateProver.prove_validator_activation_epoch, if_neg (by omega),
    prove_against_error hp sp.validator_hashes vi sp.validators_tree_depth h2]

theorem generate_ok (hp : Bytes32 → Bytes32 → Bytes32) (sp : StateProver)
    (header : BeaconBlockHeader) (ci t : Nat)
    (h1 : ci < sp.consolidation_count)
    (hsrc : (sp.consolidations.getD ci defaultConsolidation).source_index < sp.validators.length)
    (h2 : ci < 2 ^ sp.consolidations_tree_depth)
    (h4 : (sp.consolidations.getD ci defaultConsolidation).source_index < 2 ^ sp.validators_tree_depth) :
    sp.generate_full_proof_bundle hp header ci t
      = .ok { beacon_timestamp := t,
              consolidation_index := ci,
              source_index := (sp.consolidations.getD ci defaultConsolidation).source_index,
              activation_epoch :=
                (sp.validators.getD
                  (sp.consolidations.getD ci defaultConsolidation).source_index
                  defaultValidator).activation_epoch,
              source_credentials :=
                (sp.validators.getD
                  (sp.consolidations.getD ci defaultConsolidation).source_index
                  defaultValidator).withdrawal_credentials,
              proof_consolidation :=
                ((prove_container_chunks hp
                    (consolidation_field_chunks (sp.consolidations.getD ci defaultConsolidation)) 0 1).1
                  ++ prove_siblings hp sp.consolidation_hashes ci sp.consolidations_tree_depth 0
                  ++ u64_to_bytes32 sp.consolidation_count :: prove_siblings hp sp.field_roots 36 6 0)
                  ++ (prove_container_chunks hp (header_field_chunks header) 3 3).1,
              proof_credentials :=
                ((prove_container_chunks hp
                    (validator_field_chunks hp (sp.validators.getD
                      (sp.consolidations.getD ci defaultConsolidation).source_index
                      defaultValidator)) 1 3).1
                  ++ prove_siblings hp sp.validator_hashes
                      (sp.consolidations.getD ci defaultConsolidation).source_index
                      sp.validators_tree_depth 0
                  ++ u64_to_bytes32 sp.validator_count :: prove_siblings hp sp.field_roots 11 6 0)
                  ++ (prove_container_chunks hp (header_field_chunks header) 3 3).1,
              proof_activation_epoch :=
                ((prove_container_chunks hp
                    (validator_field_chunks hp (sp.validators.getD
                      (sp.consolidations.getD ci defaultConsolidation).source_index
                      defaultValidator)) 5 3).1
                  ++ prove_siblings hp sp.validator_hashes
                      (sp.consolidations.getD ci defaultConsolidation).source_index
                      sp.validators_tree_depth 0
                  ++ u64_to_bytes32 sp.validator_count :: prove_siblings hp sp.field_roots 11 6 0)
                  ++ (prove_container_chunks hp (header_field_chunks header) 3 3).1 } := by
  rw [StateProver.generate_full_proof_bundle, if_neg (by omega), if_neg (by omega),
    pcsi_ok hp sp ci h1 h2, pvc_ok hp sp _ hsrc h4, pvae_ok hp sp _ hsrc h4]

theorem generate_error_coob (hp : Bytes32 → Bytes32 → Bytes32) (sp : StateProver)
    (header : BeaconBlockHeader) (ci t : Nat) (h1 : sp.consolidation_count ≤ ci) :
    sp.generate_full_proof_bundle hp header ci t
      = .error (.ConsolidationIndexOutOfBounds ci sp.consolidation_count) := by
  rw [StateProver.generate_full_proof_bundle, if_pos h1]

theorem generate_error_voob (hp : Bytes32 → Bytes32 → Bytes32) (sp : StateProver)
    (header : BeaconBlockHeader) (ci t : Nat) (h1 : ci < sp.consolidation_count)
    (hsrc : sp.validators.length ≤ (sp.consolidations.getD ci defaultConsolidation).source_index) :
    sp.generate_full_proof_bundle hp header ci t
      = .error (.ValidatorIndexOutOfBounds
          (sp.consolidations.getD ci defaultConsolidation).source_index
          sp.validators.length) := by
  rw [StateProver.generate_full_proof_bundle, if_neg (by omega), if_pos hsrc]

theorem generate_error_panic_cons (hp : Bytes32 → Bytes32 → Bytes32) (sp : StateProver)
    (header : BeaconBlockHeader) (ci t : Nat) (h1 : ci < sp.consolidation_count)
    (hsrc : (sp.consolidations.getD ci defaultConsolidation).source_index < sp.validators.length)
    (h2 : ¬ ci < 2 ^ sp.consolidations_tree_depth) :
    sp.generate_full_proof_bundle hp header ci t
      = .error (.IndexOutOfRange ci sp.consolidations_tree_depth) := by
  rw [StateProver.generate_full_proof_bundle, if_neg (by omega), if_neg (by omega),
    pcsi_error_panic hp sp ci h1 h2]

theorem generate_error_panic_val (hp : Bytes32 → Bytes32 → Bytes32) (sp : StateProver)
    (header : BeaconBlockHeader) (ci t : Nat) (h1 : ci < sp.consolidation_count)
    (hsrc : (sp.consolidations.getD ci defaultConsolidation).source_index < sp.validators.length)
    (h2 : ci < 2 ^ sp.consolidations_tree_depth)
    (h4 : ¬ (sp.consolidations.getD ci defaultConsolidation).source_index < 2 ^ sp.validators_tree_depth) :
    sp.generate_full_proof_bundle hp header ci t
      = .error (.IndexOutOfRange
          (sp.consolidations.getD ci defaultConsolidation).source_index
          sp.validators_tree_depth) := by
  rw [StateProver.generate_full_proof_bundle, if_neg (by omega), if_neg (by omega),
    pcsi_ok hp sp ci h1 h2, pvc_error_panic hp sp _ hsrc h4]

theorem generate_ok_inv (hp : Bytes32 → Bytes32 → Bytes32) (sp : StateProver)
    (header : BeaconBlockHeader) (ci t : Nat) (b : ConsolidationProofBundle)
    (hgen : sp.generate_full_proof_bundle hp header ci t = .ok b) :
    ci < sp.consolidation_count ∧
    (sp.consolidations.getD ci defaultConsolidation).source_index < sp.validators.length ∧
    ci < 2 ^ sp.consolidations_tree_depth ∧
    (sp.consolidations.getD ci defaultConsolidation).source_index
      < 2 ^ sp.validators_tree_depth := by
  by_cases h1 : ci < sp.consolidation_count
  · by_cases hsrc : (sp.consolidations.getD ci defaultConsolidation).source_index
        < sp.validators.length
    · by_cases h2 : ci < 2 ^ sp.consolidations_tree_depth
      · by_cases h4 : (sp.consolidations.getD ci defaultConsolidation).source_index
            < 2 ^ sp.validators_tree_depth
        · exact ⟨h1, hsrc, h2, h4⟩
        · rw [generate_error_panic_val hp sp header ci t h1 hsrc h2 h4] at hgen
          simp at hgen
      · rw [generate_error_panic_cons hp sp header ci t h1 hsrc h2] at hgen
        simp at hgen
    · rw [generate_error_voob hp sp header ci t h1 (by omega)] at hgen
      simp at hgen
  · rw [generate_error_coob hp sp header ci t (by omega)] at hgen
    simp at hgen

theorem new_ok_elim (hp : Bytes32 → Bytes32 → Bytes32) (frs : List Bytes32)
    (vs : List Validator) (cs : List PendingConsolidation) (vd cd : Nat)
    (sp : StateProver) (h : StateProver.new hp frs vs cs vd cd = .ok sp) :
    sp = { field_roots := frs, validator_hashes := vs.map (validator_htr hp),
           validator_count := vs.length,
           consolidation_hashes := cs.map (consolidation_htr hp),
           consolidation_count := cs.length, validators_tree_depth := vd,
           consolidations_tree_depth := cd, validators := vs,
           consolidations := cs } := by
  rw [StateProver.new] at h
  split at h
  · exact absurd h (by simp)
  · simp only [Except.ok.injEq] at h
    exact h.symm

/-- C2: every successful `generate_full_proof_bundle` on a prover constructed
with validator tree depth `vd` and consolidation tree depth `cd` yields branch
lengths `3 + 6 + 1 + cd + 1` (consolidation) and `3 + 6 + 1 + vd + 3` (both
validator proofs). -/
theorem c2_bundle_proof_lengths (hp : Bytes32 → Bytes32 → Bytes32)
    (frs : List Bytes32) (vs : List Validator) (cs : List PendingConsolidation)
    (vd cd : Nat) (sp : StateProver) (header : BeaconBlockHeader) (ci t : Nat)
    (b : ConsolidationProofBundle)
    (hnew : StateProver.new hp frs vs cs vd cd = .ok sp)
    (hgen : sp.generate_full_proof_bundle hp header ci t = .ok b) :
    b.proof_consolidation.length = 3 + 6 + 1 + cd + 1 ∧
    b.proof_credentials.length = 3 + 6 + 1 + vd + 3 ∧
    b.proof_activation_epoch.length = 3 + 6 + 1 + vd + 3 := by
  obtain ⟨h1, hsrc, h2, h4⟩ := generate_ok_inv hp sp header ci t b hgen
  rw [generate_ok hp sp header ci t h1 hsrc h2 h4] at hgen
  simp only [Except.ok.injEq] at hgen
  subst hgen
  have hvd : sp.validators_tree_depth = vd := by
    rw [new_ok_elim hp frs vs cs vd cd sp hnew]
  have hcd : sp.consolidations_tree_depth = cd := by
    rw [new_ok_elim hp frs vs cs vd cd sp hnew]
  refine ⟨?_, ?_, ?_⟩ <;>
    simp [prove_container_chunks, prove_siblings_length, hvd, hcd] <;> omega

/-- C4: a successful bundle passes `beacon_timestamp` through unchanged, sets
`consolidation_index = i`, `source_index = consolidations[i].source_index`,
and reads `activation_epoch` and `source_credentials` from
`validators[source_index]`. -/
theorem c4_bundle_fields (hp : Bytes32 → Bytes32 → Bytes32)
    (frs : List Bytes32) (vs : List Validator) (cs : List PendingConsolidation)
    (vd cd : Nat) (sp : StateProver) (header : BeaconBlockHeader) (ci t : Nat)
    (b : ConsolidationProofBundle)
    (hnew : StateProver.new hp frs vs cs vd cd = .ok sp)
    (hgen : sp.generate_full_proof_bundle hp header ci t = .ok b) :
    b.beacon_timestamp = t ∧
    b.consolidation_index = ci ∧
    b.source_index = (cs.getD ci defaultConsolidation).source_index ∧
    b.activation_epoch = (vs.getD b.source_index defaultValidator).activation_epoch ∧
    b.source_credentials
      = (vs.getD b.source_index defaultValidator).withdrawal_credentials := by
  obtain rfl := new_ok_elim hp frs vs cs vd cd sp hnew
  obtain ⟨h1, hsrc, h2, h4⟩ := generate_ok_inv hp _ header ci t b hgen
  rw [generate_ok hp _ header ci t h1 hsrc h2 h4] at hgen
  simp only [Except.ok.injEq] at hgen
  subst hgen
  exact ⟨rfl, rfl, rfl, rfl, rfl⟩

/-- C7: `generate_full_proof_bundle` fails with
`ConsolidationIndexOutOfBounds` exactly when `i ≥ len(consolidations)`; for an
in-bounds `i` it fails with `ValidatorIndexOutOfBounds` exactly when the
referenced `source_index ≥ len(validators)`; and a failed call returns only
the error, never also a bundle. -/
theorem c7_generate_error_semantics (hp : Bytes32 → Bytes32 → Bytes32)
    (frs : List Bytes32) (vs : List Validator) (cs : List PendingConsolidation)
    (vd cd : Nat) (sp : StateProver) (header : BeaconBlockHeader) (ci t : Nat)
    (hnew : StateProver.new hp frs vs cs vd cd = .ok sp) :
    ((∃ r l, sp.generate_full_proof_bundle hp header ci t
        = .error (.ConsolidationIndexOutOfBounds r l)) ↔ cs.length ≤ ci) ∧
    (ci < cs.length →
      ((∃ r l, sp.generate_full_proof_bundle hp header ci t
          = .error (.ValidatorIndexOutOfBounds r l))
        ↔ vs.length ≤ (cs.getD ci defaultConsolidation).source_index)) ∧
    (∀ e b, sp.generate_full_proof_bundle hp header ci t = .error e →
      sp.generate_full_proof_bundle hp header ci t ≠ .ok b) := by
  obtain rfl := new_ok_elim hp frs vs cs vd cd sp hnew
  refine ⟨⟨?_, ?_⟩, fun hci => ⟨?_, ?_⟩, ?_⟩
  · rintro ⟨r, l, hE⟩
    by_contra hlt
    push_neg at hlt
    by_cases hsrc : (cs.getD ci defaultConsolidation).source_index < vs.length
    · by_cases h2 : ci < 2 ^ cd
      · by_cases h4 : (cs.getD ci defaultConsolidation).source_index < 2 ^ vd
        · rw [generate_ok hp _ header ci t hlt hsrc h2 h4] at hE
          simp at hE
        · rw [generate_error_panic_val hp _ header ci t hlt hsrc h2 h4] at hE
          simp at hE
      · rw [generate_error_panic_cons hp _ header ci t hlt hsrc h2] at hE
        simp at hE
    · rw [generate_error_voob hp _ header ci t hlt (Nat.le_of_not_lt hsrc)] at hE
      simp at hE
  · intro h
    exact ⟨ci, cs.length, generate_error_coob hp _ header ci t h⟩
  · rintro ⟨r, l, hE⟩
    by_contra hsrc
    push_neg at hsrc
    by_cases h2 : ci < 2 ^ cd
    · by_cases h4 : (cs.getD ci defaultConsolidation).source_index < 2 ^ vd
      · rw [generate_ok hp _ header ci t hci hsrc h2 h4] at hE
        simp at hE
      · rw [generate_error_panic_val hp _ header ci t hci hsrc h2 h4] at hE
        simp at hE
    · rw [generate_error_panic_cons hp _ header ci t hci hsrc h2] at hE
      simp at hE
  · intro h
    exact ⟨(cs.getD ci defaultConsolidation).source_index, vs.length,
      generate_error_voob hp _ header ci t hci h⟩
  · intro e b he hok
    rw [he] at hok
    exact Except.noConfusion hok

/-! Concrete instances for the closed witnesses. -/

/-- 37 zero field roots. -/
def frs0 : List Bytes32 := List.replicate 37 zeroLeaf

/-- A default validator. -/
def v0 : Validator := defaultValidator

/-- A consolidation with `source_index = 0`. -/
def c0 : PendingConsolidation := defaultConsolidation

/-- A zeroed header. -/
def hdr0 : BeaconBlockHeader :=
  { slot := 0, proposer_index := 0, parent_root := zeroLeaf,
    state_root := zeroLeaf, body_root := zeroLeaf }

/-- The prover produced by `StateProver.new hpW frs0 [v0] [c0] 10 6`. -/
def sp0 : StateProver :=
  { field_roots := frs0, validator_hashes := [validator_htr hpW v0],
    validator_count := 1, consolidation_hashes := [consolidation_htr hpW c0],
    consolidation_count := 1, validators_tree_depth := 10,
    consolidations_tree_depth := 6, validators := [v0], consolidations := [c0] }

/-- Witness for C2 with the test depths `vd = 10`, `cd = 6`: the lengths are
17 and 23. -/
theorem c2_witness :
    StateProver.new hpW frs0 [v0] [c0] 10 6 = .ok sp0 ∧
    ∃ b, sp0.generate_full_proof_bundle hpW hdr0 0 0 = .ok b ∧
      b.proof_consolidation.length = 3 + 6 + 1 + 6 + 1 ∧
      b.proof_credentials.length = 3 + 6 + 1 + 10 + 3 ∧
      b.proof_activation_epoch.length = 3 + 6 + 1 + 10 + 3 := by
  have hnew : StateProver.new hpW frs0 [v0] [c0] 10 6 = .ok sp0 := rfl
  have hgen := generate_ok hpW sp0 hdr0 0 0 (by decide) (by decide) (by decide)
    (by decide)
  exact ⟨hnew, _, hgen,
    c2_bundle_proof_lengths hpW frs0 [v0] [c0] 10 6 sp0 hdr0 0 0 _ hnew hgen⟩

/-- Witness for C4. -/
theorem c4_witness :
    StateProver.new hpW frs0 [v0] [c0] 10 6 = .ok sp0 ∧
    ∃ b, sp0.generate_full_proof_bundle hpW hdr0 0 5 = .ok b ∧
      b.beacon_timestamp = 5 ∧
      b.consolidation_index = 0 ∧
      b.source_index = (([c0] : List PendingConsolidation).getD 0 defaultConsolidation).source_index ∧
      b.activation_epoch
        = (([v0] : List Validator).getD b.source_index defaultValidator).activation_epoch ∧
      b.source_credentials
        = (([v0] : List Validator).getD b.source_index defaultValidator).withdrawal_credentials := by
  have hnew : StateProver.new hpW frs0 [v0] [c0] 10 6 = .ok sp0 := rfl
  have hgen := generate_ok hpW sp0 hdr0 0 5 (by decide) (by decide) (by decide)
    (by decide)
  exact ⟨hnew, _, hgen,
    c4_bundle_fields hpW frs0 [v0] [c0] 10 6 sp0 hdr0 0 5 _ hnew hgen⟩

/-- Witness for C7 at the out-of-bounds index 1. -/
theorem c7_witness :
    ((∃ r l, sp0.generate_full_proof_bundle hpW hdr0 1 0
        = .error (.ConsolidationIndexOutOfBounds r l))
      ↔ ([c0] : List PendingConsolidation).length ≤ 1) ∧
    (1 < ([c0] : List PendingConsolidation).length →
      ((∃ r l, sp0.generate_full_proof_bundle hpW hdr0 1 0
          = .error (.ValidatorIndexOutOfBounds r l))
        ↔ ([v0] : List Validator).length
            ≤ (([c0] : List PendingConsolidation).getD 1 defaultConsolidation).source_index)) ∧
    (∀ e b, sp0.generate_full_proof_bundle hpW hdr0 1 0 = .error e →
      sp0.generate_full_proof_bundle hpW hdr0 1 0 ≠ .ok b) :=
  c7_generate_error_semantics hpW frs0 [v0] [c0] 10 6 sp0 hdr0 1 0 rfl
theorem u64_bitlen_fuel_zero : ∀ fuel, u64_bitlen_fuel fuel 0 = 0 := by
  intro fuel
  cases fuel with
  | zero => rfl
  | succ fuel => rw [u64_bitlen_fuel, if_pos rfl]

theorem u64_bitlen_fuel_eq :
    ∀ d fuel n, 2 ^ d ≤ n → n < 2 ^ (d + 1) → d < fuel →
      u64_bitlen_fuel fuel n = d + 1 := by
  intro d
  induction d with
  | zero =>
    intro fuel n h1 h2 hf
    obtain ⟨f, rfl⟩ : ∃ f, fuel = f + 1 := ⟨fuel - 1, by omega⟩
    have hn : n = 1 := by norm_num at h1 h2; omega
    subst hn
    rw [u64_bitlen_fuel, if_neg (by omega)]
    norm_num [u64_bitlen_fuel_zero]
  | succ d ih =>
    intro fuel n h1 h2 hf
    obtain ⟨f, rfl⟩ : ∃ f, fuel = f + 1 := ⟨fuel - 1, by omega⟩
    have hp1 : (2 : Nat) ^ (d + 1) = 2 * 2 ^ d := by ring
    have hp2 : (2 : Nat) ^ (d + 2) = 2 * 2 ^ (d + 1) := by ring
    have hn0 : n ≠ 0 := by have := Nat.one_le_two_pow (n := d + 1); omega
    rw [u64_bitlen_fuel, if_neg hn0,
      ih f (n / 2) (by omega) (by omega) (by omega)]

theorem gindex_depth_eq (d g : Nat) (h1 : 2 ^ d ≤ g) (h2 : g < 2 ^ (d + 1))
    (hd : d ≤ 63) : gindex_depth g = d := by
  rw [gindex_depth, u64_leading_zeros, u64_bitlen_fuel_eq d 64 g h1 h2 (by omega)]
  omega

theorem gindex_depth_bounds (g : Nat) (h0 : 0 < g) (h64 : g < 2 ^ 64) :
    2 ^ gindex_depth g ≤ g ∧ g < 2 ^ (gindex_depth g + 1) ∧ gindex_depth g ≤ 63 := by
  have hl1 : 2 ^ Nat.log 2 g ≤ g := Nat.pow_log_le_self 2 (by omega)
  have hl2 : g < 2 ^ (Nat.log 2 g + 1) := Nat.lt_pow_succ_log_self (by omega) g
  have hl3 : Nat.log 2 g ≤ 63 := by
    have := Nat.log_lt_of_lt_pow (b := 2) (show g ≠ 0 by omega) h64
    omega
  have hgd : gindex_depth g = Nat.log 2 g := gindex_depth_eq _ g hl1 hl2 hl3
  rw [hgd]
  exact ⟨hl1, hl2, hl3⟩

theorem testBit_mul_two_pow_add_lt (a b d j : Nat) (hj : j < d) :
    (a * 2 ^ d + b).testBit j = b.testBit j := by
  rw [Nat.testBit_to_div_mod, Nat.testBit_to_div_mod]
  have hdj : (2 : Nat) ^ d = 2 ^ j * 2 ^ (d - j) := by
    rw [← pow_add]
    congr 1
    omega
  have hsplit : a * 2 ^ d + b = 2 ^ j * (a * 2 ^ (d - j)) + b := by
    rw [hdj]
    ring
  rw [hsplit, Nat.mul_add_div (Nat.two_pow_pos j)]
  have hde : (2 : Nat) ^ (d - j) = 2 * 2 ^ (d - j - 1) := by
    rw [← pow_succ']
    congr 1
    omega
  have heven : a * 2 ^ (d - j) = 2 * (a * 2 ^ (d - j - 1)) := by
    rw [hde]
    ring
  have hmod : (a * 2 ^ (d - j) + b / 2 ^ j) % 2 = b / 2 ^ j % 2 := by omega
  rw [hmod]

theorem testBit_mul_two_pow_add_ge (a b d j : Nat) (hb : b < 2 ^ d) (hj : d ≤ j) :
    (a * 2 ^ d + b).testBit j = a.testBit (j - d) := by
  rw [Nat.testBit_to_div_mod, Nat.testBit_to_div_mod]
  have e1 : (a * 2 ^ d + b) / 2 ^ d = a := by
    rw [show a * 2 ^ d + b = b + 2 ^ d * a by ring,
      Nat.add_mul_div_left b a (Nat.two_pow_pos d), Nat.div_eq_of_lt hb, zero_add]
  have e2 : (a * 2 ^ d + b) / 2 ^ j = a / 2 ^ (j - d) := by
    rw [show (2 : Nat) ^ j = 2 ^ d * 2 ^ (j - d) by rw [← pow_add]; congr 1; omega,
      ← Nat.div_div_eq_div_mul, e1]
  rw [e2]

theorem lor_mul_two_pow (a b d : Nat) (hb : b < 2 ^ d) :
    a * 2 ^ d ||| b = a * 2 ^ d + b := by
  apply Nat.eq_of_testBit_eq
  intro j
  rw [Nat.testBit_or]
  by_cases hj : j < d
  · rw [testBit_mul_two_pow_add_lt a b d j hj]
    have h0 : (a * 2 ^ d).testBit j = false := by
      have := testBit_mul_two_pow_add_lt a 0 d j hj
      simpa using this
    rw [h0, Bool.false_or]
  · push_neg at hj
    rw [testBit_mul_two_pow_add_ge a b d j hb hj]
    have h0 : (a * 2 ^ d).testBit j = a.testBit (j - d) := by
      have := testBit_mul_two_pow_add_ge a 0 d j (Nat.two_pow_pos d) hj
      simpa using this
    rw [h0, Nat.testBit_lt_two_pow
      (lt_of_lt_of_le hb (Nat.pow_le_pow_right (by omega) hj)), Bool.or_false]

theorem xor_two_pow_add (r d : Nat) (hr : r < 2 ^ d) :
    (2 ^ d + r) ^^^ 2 ^ d = r := by
  apply Nat.eq_of_testBit_eq
  intro j
  rw [Nat.testBit_xor]
  rcases lt_trichotomy j d with hj | rfl | hj
  · rw [show (2 : Nat) ^ d + r = 1 * 2 ^ d + r by ring,
      testBit_mul_two_pow_add_lt 1 r d j hj,
      Nat.testBit_two_pow_of_ne (by omega), Bool.xor_false]
  · rw [Nat.testBit_two_pow_add_eq, Nat.testBit_two_pow_self,
      Nat.testBit_lt_two_pow hr]
    rfl
  · rw [show (2 : Nat) ^ d + r = 1 * 2 ^ d + r by ring,
      testBit_mul_two_pow_add_ge 1 r d j hr (by omega),
      Nat.testBit_two_pow_of_ne (by omega),
      Nat.testBit_lt_two_pow (show (1 : Nat) < 2 ^ (j - d) by
        have := Nat.one_lt_two_pow_iff (n := j - d); omega),
      Bool.xor_false, Nat.testBit_lt_two_pow
        (lt_of_lt_of_le hr (Nat.pow_le_pow_right (by omega) (by omega)))]

theorem concat_step_arith (acc g d : Nat) (hg1 : 2 ^ d ≤ g) (hg2 : g < 2 ^ (d + 1))
    (hd : d ≤ 63) (hfit : acc * 2 ^ d < 2 ^ 64) :
    concat_step acc g = acc * 2 ^ d + (g - 2 ^ d) := by
  rw [concat_step, gindex_depth_eq d g hg1 hg2 hd, Nat.mod_eq_of_lt hfit]
  obtain ⟨r, rfl⟩ : ∃ r, g = 2 ^ d + r := ⟨g - 2 ^ d, by omega⟩
  rw [xor_two_pow_add r d (by omega), lor_mul_two_pow acc r d (by omega)]
  omega

theorem concat_step_one (g : Nat) (h0 : 0 < g) (h64 : g < 2 ^ 64) :
    concat_step 1 g = g := by
  obtain ⟨hb1, hb2, hb3⟩ := gindex_depth_bounds g h0 h64
  rw [concat_step_arith 1 g (gindex_depth g) hb1 hb2 hb3 (by omega)]
  omega

/-- C9: `concat_gindices` of the empty path is the root gindex 1, a singleton
path is the identity, and concatenation adds depths whenever the concatenated
gindex still fits in 64 bits. -/
theorem c9_concat_gindices_algebra :
    concat_gindices ([] : List Nat) = 1 ∧
    (∀ g, 0 < g → g < 2 ^ 64 → concat_gindices [g] = g) ∧
    (∀ g1 g2, 0 < g1 → 0 < g2 → g1 < 2 ^ 64 → g2 < 2 ^ 64 →
      g1 * 2 ^ gindex_depth g2 + (g2 - 2 ^ gindex_depth g2) < 2 ^ 64 →
      gindex_depth (concat_gindices [g1, g2])
        = gindex_depth g1 + gindex_depth g2) := by
  refine ⟨rfl, ?_, ?_⟩
  · intro g h0 h64
    show concat_step 1 g = g
    exact concat_step_one g h0 h64
  · intro g1 g2 h01 h02 h641 h642 hfit
    obtain ⟨ha1, ha2, ha3⟩ := gindex_depth_bounds g1 h01 h641
    obtain ⟨hb1, hb2, hb3⟩ := gindex_depth_bounds g2 h02 h642
    have hcg : concat_gindices [g1, g2]
        = g1 * 2 ^ gindex_depth g2 + (g2 - 2 ^ gindex_depth g2) := by
      show concat_step (concat_step 1 g1) g2 = _
      rw [concat_step_one g1 h01 h641,
        concat_step_arith g1 g2 (gindex_depth g2) hb1 hb2 hb3 (by omega)]
    rw [hcg]
    have hp1 : (2 : Nat) ^ (gindex_depth g1 + gindex_depth g2)
        = 2 ^ gindex_depth g1 * 2 ^ gindex_depth g2 := pow_add 2 _ _
    have hp2 : (2 : Nat) ^ (gindex_depth g1 + gindex_depth g2 + 1)
        = 2 ^ (gindex_depth g1 + 1) * 2 ^ gindex_depth g2 := by
      rw [← pow_add]
      congr 1
      omega
    have hlow : 2 ^ (gindex_depth g1 + gindex_depth g2)
        ≤ g1 * 2 ^ gindex_depth g2 + (g2 - 2 ^ gindex_depth g2) := by
      have hm := Nat.mul_le_mul_right (2 ^ gindex_depth g2) ha1
      omega
    have hhigh : g1 * 2 ^ gindex_depth g2 + (g2 - 2 ^ gindex_depth g2)
        < 2 ^ (gindex_depth g1 + gindex_depth g2 + 1) := by
      have h2 : (g1 + 1) * 2 ^ gindex_depth g2
          ≤ 2 ^ (gindex_depth g1 + 1) * 2 ^ gindex_depth g2 :=
        Nat.mul_le_mul_right _ ha2
      have h2e : (g1 + 1) * 2 ^ gindex_depth g2
          = g1 * 2 ^ gindex_depth g2 + 2 ^ gindex_depth g2 := by ring
      have hp3 : (2 : Nat) ^ (gindex_depth g2 + 1) = 2 * 2 ^ gindex_depth g2 := by
        ring
      omega
    have hd12 : gindex_depth g1 + gindex_depth g2 ≤ 63 := by
      by_contra hgt
      push_neg at hgt
      have hmono : (2 : Nat) ^ 64 ≤ 2 ^ (gindex_depth g1 + gindex_depth g2) :=
        Nat.pow_le_pow_right (by omega) (by omega)
      omega
    exact gindex_depth_eq _ _ hlow hhigh hd12

/-- Witness for C9 at `g1 = 6`, `g2 = 5` (depths 2 and 2, concatenation 25 of
depth 4). -/
theorem c9_witness :
    concat_gindices ([] : List Nat) = 1 ∧
    concat_gindices [6] = 6 ∧
    (6 : Nat) * 2 ^ gindex_depth 5 + (5 - 2 ^ gindex_depth 5) < 2 ^ 64 ∧
    gindex_depth (concat_gindices [6, 5]) = gindex_depth 6 + gindex_depth 5 :=
  ⟨c9_concat_gindices_algebra.1,
    c9_concat_gindices_algebra.2.1 6 (by norm_num) (by norm_num),
    by decide,
    c9_concat_gindices_algebra.2.2 6 5 (by norm_num) (by norm_num) (by norm_num)
      (by norm_num) (by decide)⟩

/-- C3 counterexample: the gindex-calculator-derived validator branch length
is 53 — not 23 — whatever the preset, because
`GindexCalculator::validators_tree_depth()` is the constant 40 in every
preset. -/
theorem c3_counterexample :
    validator_proof_length = 53 ∧ validator_proof_length ≠ 23 := by decide

/-- C3 amended: under the production preset the derived lengths are 29
(consolidation) and 53 (validator); under the test preset the consolidation
length is 17 but the validator length is still 53, since the validators data
depth is the constant 40 in every preset. -/
theorem c3_gindex_proof_lengths :
    consolidation_proof_length PENDING_CONSOLIDATIONS_DEPTH_PRODUCTION = 29 ∧
    validator_proof_length = 53 ∧
    consolidation_proof_length PENDING_CONSOLIDATIONS_DEPTH_TEST = 17 ∧
    gindex_depth (validator_credentials_gindex 0) = 53 := by decide
theorem pvae_error_oob (hp : Bytes32 → Bytes32 → Bytes32) (sp : StateProver) (vi : Nat)
    (h1 : sp.validators.length ≤ vi) :
    sp.prove_validator_activation_epoch hp vi
      = .error (.ValidatorIndexOutOfBounds vi sp.validators.length) := by
  rw [StateProver.prove_validator_activation_epoch, if_pos h1]

/-- C8 counterexample: `prove_list_element` at index 0 of an empty list
(index = list length, inside the capacity `2^1`) returns a proof of the zero
leaf instead of an out-of-bounds error. -/
theorem c8_counterexample :
    prove_list_element hpW ([] : List Bytes32) 0 1 0
      = .ok ([zeroLeaf, u64_to_bytes32 0],
          hpW (hpW zeroLeaf zeroLeaf) (u64_to_bytes32 0)) ∧
    (0 : Nat) < 2 ^ 1 :=
  ⟨rfl, by norm_num⟩

/-- C8 amended: the StateProver proof operations reject a request at index
equal to the list length with an out-of-bounds `ProofError`; `prove_list_element`
performs no length check and produces a proof at index = length whenever that
index is inside the capacity `2^capacity_depth`. -/
theorem c8_length_boundary (hp : Bytes32 → Bytes32 → Bytes32) (sp : StateProver)
    (hashes : List Bytes32) (D L : Nat) (hL : L < 2 ^ D) :
    sp.prove_consolidation_source_index hp sp.consolidation_count
      = .error (.ConsolidationIndexOutOfBounds sp.consolidation_count
          sp.consolidation_count) ∧
    sp.prove_validator_credentials hp sp.validators.length
      = .error (.ValidatorIndexOutOfBounds sp.validators.length
          sp.validators.length) ∧
    sp.prove_validator_activation_epoch hp sp.validators.length
      = .error (.ValidatorIndexOutOfBounds sp.validators.length
          sp.validators.length) ∧
    ∃ branch root, prove_list_element hp hashes L D L = .ok (branch, root) := by
  refine ⟨pcsi_error_oob hp sp _ (le_refl _), pvc_error_oob hp sp _ (le_refl _),
    pvae_error_oob hp sp _ (le_refl _),
    prove_siblings hp hashes L D 0 ++ [u64_to_bytes32 L],
    hp (fold_branch hp (get_leaf hashes L) (prove_siblings hp hashes L D 0) L)
      (u64_to_bytes32 L), ?_⟩
  rw [prove_list_element, prove_against_ok hp hashes L D hL]

/-- Witness for C8's amended statement at `sp0`, the empty hash list, `D = 1`
and `L = 0`. -/
theorem c8_witness :
    (0 : Nat) < 2 ^ 1 ∧
    (sp0.prove_consolidation_source_index hpW sp0.consolidation_count
        = .error (.ConsolidationIndexOutOfBounds sp0.consolidation_count
            sp0.consolidation_count) ∧
      sp0.prove_validator_credentials hpW sp0.validators.length
        = .error (.ValidatorIndexOutOfBounds sp0.validators.length
            sp0.validators.length) ∧
      sp0.prove_validator_activation_epoch hpW sp0.validators.length
        = .error (.ValidatorIndexOutOfBounds sp0.validators.length
            sp0.validators.length) ∧
      ∃ branch root, prove_list_element hpW ([] : List Bytes32) 0 1 0
        = .ok (branch, root)) :=
  ⟨by norm_num, c8_length_boundary hpW sp0 ([] : List Bytes32) 1 0 (by norm_num)⟩

/-- C10: `recipient_address` returns `some` of the last 20 bytes of the
credentials exactly when the prefix byte is `0x01` or `0x02`, and `none` for
every other prefix byte. -/
theorem c10_recipient_address_iff (b : ConsolidationProofBundle)
    (hlen : b.source_credentials.length = 32) :
    (b.recipient_address = some (b.source_credentials.drop 12)
      ↔ (b.source_credentials.getD 0 0 = 1 ∨ b.source_credentials.getD 0 0 = 2)) ∧
    (b.recipient_address = none
      ↔ ¬(b.source_credentials.getD 0 0 = 1 ∨ b.source_credentials.getD 0 0 = 2)) ∧
    (b.source_credentials.drop 12).length = 20 := by
  have hdrop : (b.source_credentials.drop 12).length = 20 := by
    rw [List.length_drop, hlen]
  have htake : (b.source_credentials.drop 12).take 20 = b.source_credentials.drop 12 :=
    List.take_of_length_le (by omega)
  have hre : b.recipient_address
      = if b.source_credentials.getD 0 0 = 1 ∨ b.source_credentials.getD 0 0 = 2
        then some (b.source_credentials.drop 12) else none := by
    simp only [ConsolidationProofBundle.recipient_address]
    by_cases hcond : b.source_credentials.getD 0 0 = 1 ∨ b.source_credentials.getD 0 0 = 2
    · rw [if_pos hcond, if_pos hcond, htake]
    · rw [if_neg hcond, if_neg hcond]
  rw [hre]
  by_cases hcond : b.source_credentials.getD 0 0 = 1 ∨ b.source_credentials.getD 0 0 = 2
  · rw [if_pos hcond]
    exact ⟨⟨fun _ => hcond, fun _ => rfl⟩,
      ⟨fun h => absurd h (by simp), fun h => absurd hcond h⟩, hdrop⟩
  · rw [if_neg hcond]
    exact ⟨⟨fun h => absurd h (by simp), fun h => absurd h hcond⟩,
      ⟨fun _ => hcond, fun _ => rfl⟩, hdrop⟩

/-- Bundle used by the C10 witness: credentials with prefix byte `0x01`. -/
def b1 : ConsolidationProofBundle :=
  { beacon_timestamp := 0, consolidation_index := 0, source_index := 0,
    activation_epoch := 0, source_credentials := 1 :: List.replicate 31 7,
    proof_consolidation := [], proof_credentials := [],
    proof_activation_epoch := [] }

/-- Witness for C10 at `b1`. -/
theorem c10_witness :
    b1.source_credentials.length = 32 ∧
    ((b1.recipient_address = some (b1.source_credentials.drop 12)
        ↔ (b1.source_credentials.getD 0 0 = 1 ∨ b1.source_credentials.getD 0 0 = 2)) ∧
      (b1.recipient_address = none
        ↔ ¬(b1.source_credentials.getD 0 0 = 1 ∨ b1.source_credentials.getD 0 0 = 2)) ∧
      (b1.source_credentials.drop 12).length = 20) :=
  ⟨by decide, c10_recipient_address_iff b1 (by decide)⟩
